import Mathlib

/-!
Shallow embedding of the `openfoodfacts-mcp` nutrition tracker
(`src/openfoodfacts_mcp/{models,storage,client,server}.py`).

Modelling conventions:
* Python floats are modelled as exact rationals (`ℚ`); the code applies no
  rounding in the core arithmetic, only in string presentation, which is
  outside the model except where a field stores a formatted value.
* The SQLite table `food_log` is modelled as a list of rows plus the next
  AUTOINCREMENT id; `ORDER BY meal_type, id` is BINARY (byte-wise) collation
  on the `meal_type` text column, i.e. lexicographic string order, modelled
  with Lean's lexicographic `String` order (identical on these strings).
* Network-backed collaborators (`storage.find_custom_product`,
  `client.get_product`, `client.search_products`) are abstracted as oracle
  functions in an environment record; the calls the server code issues to
  them are recorded in an explicit trace.
-/

namespace OFFMCP

/-- `models.Nutriments`: per-100g nutrient profile, all fields default 0. -/
structure Nutriments where
  calories_kcal : ℚ := 0
  proteins_g : ℚ := 0
  fats_g : ℚ := 0
  carbs_g : ℚ := 0
  sugars_g : ℚ := 0
  fiber_g : ℚ := 0
  salt_g : ℚ := 0
deriving DecidableEq

/-- `models.Product`: a normalized product record. -/
structure Product where
  barcode : String := ""
  name : String := ""
  brands : String := ""
  nutrition_grade : String := ""
  nova_group : Option Int := none
  image_url : String := ""
  serving_size : String := ""
  nutriments : Nutriments := {}
deriving DecidableEq

/-- `models.CustomProduct`: a user-defined product with per-100g values. -/
structure CustomProduct where
  id : Nat := 0
  name : String
  brand : String := ""
  serving_g : Option ℚ := none
  calories_kcal_100g : ℚ
  proteins_g_100g : ℚ := 0
  fats_g_100g : ℚ := 0
  carbs_g_100g : ℚ := 0
  sugars_g_100g : ℚ := 0
  fiber_g_100g : ℚ := 0
deriving DecidableEq

/-- Python `f"{g:.0f}"` on a float: round to an integer and print it
(rounding mode modelled as round-half-up; the value is only ever stored in
the free-text `serving_size` field, never used in arithmetic). -/
def fmtG (g : ℚ) : String :=
  toString (g + 1 / 2).floor ++ "g"

/-- `CustomProduct.to_product`: convert to `Product` for unified handling in
`log_food`; the six nutrient fields are copied unchanged into the
per-100g profile (salt is absent from custom products, so it defaults). -/
def CustomProduct.to_product (c : CustomProduct) : Product :=
  { name := c.name
    brands := c.brand
    serving_size :=
      match c.serving_g with
      | none => ""
      | some g => if g = 0 then "" else fmtG g
    nutriments :=
      { calories_kcal := c.calories_kcal_100g
        proteins_g := c.proteins_g_100g
        fats_g := c.fats_g_100g
        carbs_g := c.carbs_g_100g
        sugars_g := c.sugars_g_100g
        fiber_g := c.fiber_g_100g } }

/-- `models.FoodEntry`: one persisted food-log row. -/
structure FoodEntry where
  id : Nat := 0
  date : String := ""
  meal_type : String := ""
  product_name : String := ""
  barcode : Option String := none
  amount_g : ℚ := 0
  calories_kcal : ℚ := 0
  proteins_g : ℚ := 0
  fats_g : ℚ := 0
  carbs_g : ℚ := 0
  sugars_g : ℚ := 0
  fiber_g : ℚ := 0
deriving DecidableEq

/-- The `food_log` SQLite table: persisted rows plus the next
AUTOINCREMENT id (SQLite assigns ids 1, 2, ...). -/
structure Store where
  rows : List FoodEntry := []
  next_id : Nat := 1
deriving DecidableEq

/-- `storage.log_food`: insert a row with a fresh id, return the id. -/
def storage_log_food (s : Store) (e : FoodEntry) : Nat × Store :=
  (s.next_id,
   { rows := s.rows ++ [{ e with id := s.next_id }], next_id := s.next_id + 1 })

/-- `storage.delete_entry`: `DELETE FROM food_log WHERE id = ?`, returning
`rowcount > 0`. -/
def delete_entry (table : List FoodEntry) (entry_id : Nat) :
    Bool × List FoodEntry :=
  (decide (0 < table.countP (fun r => r.id == entry_id)),
   table.filter (fun r => !(r.id == entry_id)))

/-- Strict byte-wise text comparison, as SQLite's default BINARY collation
compares TEXT values (memcmp of the UTF-8 encodings; UTF-8 byte order
agrees with codepoint-lexicographic order, modelled here on the
character lists). -/
def textLt : List Char → List Char → Bool
  | _, [] => false
  | [], _ :: _ => true
  | a :: as, b :: bs =>
    if a.toNat < b.toNat then true
    else if b.toNat < a.toNat then false
    else textLt as bs

theorem char_eq_of_toNat_eq {a b : Char} (h : a.toNat = b.toNat) : a = b :=
  Char.eq_of_val_eq (UInt32.toNat.inj h)

theorem textLt_trichotomy :
    ∀ x y : List Char, textLt x y = true ∨ x = y ∨ textLt y x = true := by
  intro x
  induction x with
  | nil =>
    intro y
    cases y with
    | nil => exact Or.inr (Or.inl rfl)
    | cons b bs => exact Or.inl rfl
  | cons a as ih =>
    intro y
    cases y with
    | nil => exact Or.inr (Or.inr rfl)
    | cons b bs =>
      rcases Nat.lt_trichotomy a.toNat b.toNat with h | h | h
      · exact Or.inl (by simp [textLt, h])
      · have hab : a = b := char_eq_of_toNat_eq h
        subst hab
        rcases ih bs with h2 | h2 | h2
        · exact Or.inl (by simp [textLt, h2])
        · exact Or.inr (Or.inl (by rw [h2]))
        · exact Or.inr (Or.inr (by simp [textLt, h2]))
      · exact Or.inr (Or.inr (by simp [textLt, h]))

theorem textLt_trans :
    ∀ x y z : List Char,
      textLt x y = true → textLt y z = true → textLt x z = true := by
  intro x
  induction x with
  | nil =>
    intro y z h1 h2
    cases z with
    | nil => cases y <;> simp [textLt] at h2
    | cons c cs => rfl
  | cons a as ih =>
    intro y z h1 h2
    cases y with
    | nil => simp [textLt] at h1
    | cons b bs =>
      cases z with
      | nil => simp [textLt] at h2
      | cons c cs =>
        rcases Nat.lt_trichotomy a.toNat b.toNat with hab | hab | hab
        · rcases Nat.lt_trichotomy b.toNat c.toNat with hbc | hbc | hbc
          · exact by simp [textLt, Nat.lt_trans hab hbc]
          · exact by simp [textLt, hbc ▸ hab]
          · simp [textLt, hbc, Nat.lt_asymm hbc] at h2
        · rcases Nat.lt_trichotomy b.toNat c.toNat with hbc | hbc | hbc
          · exact by simp [textLt, hab ▸ hbc]
          · have hac : a.toNat = c.toNat := hab.trans hbc
            have h1' : textLt as bs = true := by
              simpa [textLt, hab, Nat.lt_irrefl] using h1
            have h2' : textLt bs cs = true := by
              simpa [textLt, hbc, Nat.lt_irrefl] using h2
            simpa [textLt, hac, Nat.lt_irrefl] using ih bs cs h1' h2'
          · simp [textLt, hbc, Nat.lt_asymm hbc] at h2
        · simp [textLt, hab, Nat.lt_asymm hab] at h1

theorem string_eq_of_data_eq {s t : String} (h : s.data = t.data) : s = t := by
  cases s; cases t; exact congrArg String.mk h

/-- The ordering used by `ORDER BY meal_type, id` in
`storage.get_entries_for_date`: byte-wise text order on `meal_type`,
ties broken by the integer primary key `id`. -/
def sqlLe (a b : FoodEntry) : Prop :=
  textLt a.meal_type.data b.meal_type.data = true ∨
    (a.meal_type = b.meal_type ∧ a.id ≤ b.id)

instance : DecidableRel sqlLe := fun a b => by
  unfold sqlLe; infer_instance

instance : IsTotal FoodEntry sqlLe where
  total a b := by
    rcases textLt_trichotomy a.meal_type.data b.meal_type.data with h | h | h
    · exact Or.inl (Or.inl h)
    · have hs : a.meal_type = b.meal_type := string_eq_of_data_eq h
      rcases Nat.le_total a.id b.id with hid | hid
      · exact Or.inl (Or.inr ⟨hs, hid⟩)
      · exact Or.inr (Or.inr ⟨hs.symm, hid⟩)
    · exact Or.inr (Or.inl h)

instance : IsTrans FoodEntry sqlLe where
  trans a b c hab hbc := by
    rcases hab with hab | ⟨hab, haid⟩
    · rcases hbc with hbc | ⟨hbc, _⟩
      · exact Or.inl (textLt_trans _ _ _ hab hbc)
      · exact Or.inl (hbc ▸ hab)
    · rcases hbc with hbc | ⟨hbc, hbid⟩
      · exact Or.inl (hab ▸ hbc)
      · exact Or.inr ⟨hab.trans hbc, haid.trans hbid⟩

/-- `storage.get_entries_for_date`:
`SELECT * FROM food_log WHERE date = ? ORDER BY meal_type, id`. -/
def get_entries_for_date (table : List FoodEntry) (target_date : String) :
    List FoodEntry :=
  List.insertionSort sqlLe (table.filter (fun r => r.date == target_date))

/-- `models.DailySummary`. -/
structure DailySummary where
  date : String
  total_calories : ℚ := 0
  total_proteins : ℚ := 0
  total_fats : ℚ := 0
  total_carbs : ℚ := 0
  total_sugars : ℚ := 0
  total_fiber : ℚ := 0
  entries : List FoodEntry := []
deriving DecidableEq

/-- `storage.get_daily_summary`: sums the six totals over the day's rows. -/
def get_daily_summary (table : List FoodEntry) (target_date : String) :
    DailySummary :=
  let entries := get_entries_for_date table target_date
  { date := target_date
    total_calories := (entries.map FoodEntry.calories_kcal).sum
    total_proteins := (entries.map FoodEntry.proteins_g).sum
    total_fats := (entries.map FoodEntry.fats_g).sum
    total_carbs := (entries.map FoodEntry.carbs_g).sum
    total_sugars := (entries.map FoodEntry.sugars_g).sum
    total_fiber := (entries.map FoodEntry.fiber_g).sum
    entries := entries }

/-- The fixed meal display order used by `DailySummary.format`. -/
def meal_order : List String := ["breakfast", "lunch", "dinner", "snack"]

/-- One meal section of `DailySummary.format`: the day's entries whose
`meal_type` equals `meal` (in list order), or nothing when the meal is
absent (`if meal not in by_meal: continue`). -/
def format_meal_group (s : DailySummary) (meal : String) :
    Option (String × List FoodEntry) :=
  let meal_entries := s.entries.filter (fun e => e.meal_type == meal)
  if meal_entries.isEmpty then none else some (meal, meal_entries)

/-- The sequence of meal sections rendered by `DailySummary.format`:
canonical meals in the fixed order, each with its entries. -/
def format_meal_groups (s : DailySummary) : List (String × List FoodEntry) :=
  meal_order.filterMap (format_meal_group s)

/-- The meal ranking asserted by the specification: breakfast < lunch <
dinner < snack, any other meal type after all four. -/
def canonical_rank (m : String) : Nat :=
  if m = "breakfast" then 0
  else if m = "lunch" then 1
  else if m = "dinner" then 2
  else if m = "snack" then 3
  else 4

/-- The ordering the specification claims for `entriesForDate`:
`(canonical meal rank, id)` lexicographically. -/
def claim_le (a b : FoodEntry) : Bool :=
  canonical_rank a.meal_type < canonical_rank b.meal_type ||
    (canonical_rank a.meal_type == canonical_rank b.meal_type && a.id ≤ b.id)

/-- A list is ordered as the specification claims when each adjacent pair
satisfies `claim_le`. -/
def claim_ordered : List FoodEntry → Bool
  | [] => true
  | [_] => true
  | a :: b :: rest => claim_le a b && claim_ordered (b :: rest)

/-- The external collaborators `server.log_food` consults, abstracted as
oracles: `storage.find_custom_product`, `client.get_product`, and
`client.search_products query page page_size`. -/
structure Env where
  find_custom_product : String → Option CustomProduct
  get_product : String → Option Product
  search_products : String → Int → Int → List Product

/-- A record of one outbound remote (OpenFoodFacts) call. -/
inductive RemoteCall where
  | barcodeLookup (code : String)
  | search (query : String) (page : Int) (page_size : Int)
deriving DecidableEq

/-- Python `str.isdigit` on ASCII text: non-empty and all characters are
decimal digits. -/
def pyIsdigit (s : String) : Bool :=
  !s.data.isEmpty && s.data.all Char.isDigit

/-- Python `str.lower()` on ASCII text: lower-case each character. -/
def pyLower (s : String) : String :=
  ⟨s.data.map Char.toLower⟩

/-- The product-resolution cascade of `server.log_food` (steps 1-3):
local custom catalog first, then — only when that found nothing — the
barcode lookup when the identifier is all digits of length ≥ 8, then the
free-text search with `page_size=1`, taking the first result.  The second
component records the remote calls issued, in order. -/
def resolve_product (env : Env) (ident : String) :
    Option Product × List RemoteCall :=
  match env.find_custom_product ident with
  | some custom => (some custom.to_product, [])
  | none =>
    if pyIsdigit ident && 8 ≤ ident.length then
      match env.get_product ident with
      | some p => (some p, [.barcodeLookup ident])
      | none =>
        match env.search_products ident 1 1 with
        | [] => (none, [.barcodeLookup ident, .search ident 1 1])
        | p :: _ => (some p, [.barcodeLookup ident, .search ident 1 1])
    else
      match env.search_products ident 1 1 with
      | [] => (none, [.search ident 1 1])
      | p :: _ => (some p, [.search ident 1 1])

/-- The entry construction of `server.log_food`: `ratio = amount_g / 100.0`
and each of the six nutrient totals is the per-100g value times `ratio`
(`barcode=product.barcode or None` maps the empty string to `none`). -/
def build_entry (product : Product) (amount_g : ℚ) (meal_type : String)
    (today : String) : FoodEntry :=
  let ratio := amount_g / 100
  { date := today
    meal_type := meal_type
    product_name := product.name
    barcode := if product.barcode = "" then none else some product.barcode
    amount_g := amount_g
    calories_kcal := product.nutriments.calories_kcal * ratio
    proteins_g := product.nutriments.proteins_g * ratio
    fats_g := product.nutriments.fats_g * ratio
    carbs_g := product.nutriments.carbs_g * ratio
    sugars_g := product.nutriments.sugars_g * ratio
    fiber_g := product.nutriments.fiber_g * ratio }

/-- `valid_meals` of `server.log_food`. -/
def valid_meals : List String := ["breakfast", "lunch", "dinner", "snack"]

/-- Outcome of the `log_food` tool (string rendering of the three outcomes
is presentation and left out). -/
inductive LogFoodResult where
  | invalidMealType (meal_type : String)
  | notFound (ident : String)
  | logged (entry : FoodEntry) (entry_id : Nat)
deriving DecidableEq

/-- Whether a `log_food` outcome is a successful, persisted entry. -/
def LogFoodResult.isLogged : LogFoodResult → Bool
  | .logged _ _ => true
  | _ => false

/-- `server.log_food`: validate the meal type (lower-cased, must be one of
the four), resolve the product, scale the per-100g profile by
`amount_g / 100`, and persist the entry.  `today` stands for
`date.today().isoformat()` (the ambient clock, injected).  Returns the
outcome, the updated store, and the remote calls made. -/
def log_food (env : Env) (store : Store) (today : String)
    (barcode_or_name : String) (amount_g : ℚ) (meal_type : String) :
    LogFoodResult × Store × List RemoteCall :=
  let mt := pyLower meal_type
  if mt ∈ valid_meals then
    match resolve_product env barcode_or_name with
    | (none, calls) => (.notFound barcode_or_name, store, calls)
    | (some product, calls) =>
      let entry := build_entry product amount_g mt today
      let (entry_id, store2) := storage_log_food store entry
      (.logged { entry with id := entry_id } entry_id, store2, calls)
  else
    (.invalidMealType mt, store, [])

/-- A day counts as active in `storage.get_weekly_summary` when its
summary has at least one entry (`if d.entries`). -/
def dayActive (d : DailySummary) : Bool :=
  !d.entries.isEmpty

/-- Average daily calories over a list of day summaries. -/
def avgCal (l : List DailySummary) : ℚ :=
  (l.map DailySummary.total_calories).sum / l.length

/-- The trend classification of `storage.get_weekly_summary`
(`"stabilne"` carries no magnitude in the rendered text; increase and
decrease carry the signed difference). -/
inductive Trend where
  | stable
  | increase (diff : ℚ)
  | decrease (diff : ℚ)
deriving DecidableEq

/-- `avg_recent - avg_earlier` of the trend block of
`storage.get_weekly_summary`. -/
def weekly_diff (days : List DailySummary) : ℚ :=
  avgCal ((days.take 3).filter dayActive) -
    avgCal ((days.drop 3).filter dayActive)

/-- The trend block of `storage.get_weekly_summary`: recent = first 3 days
of the today-first list, earlier = the rest, each filtered to active days;
emitted only when both are non-empty (`if recent and earlier`). -/
def weekly_trend (days : List DailySummary) : Option Trend :=
  if ((days.take 3).filter dayActive).isEmpty ||
      ((days.drop 3).filter dayActive).isEmpty then none
  else
    let diff := weekly_diff days
    if |diff| < 50 then some .stable
    else if 0 < diff then some (.increase diff)
    else some (.decrease diff)

/-- Outcome of `storage.get_weekly_summary` (structured counterpart of the
rendered report): either the no-data message, or the six averages over
active days, the active-day count, and the optional trend. -/
inductive WeeklyResult where
  | noData
  | summary (avg_cal avg_prot avg_fat avg_carb avg_sugar avg_fiber : ℚ)
      (active_day_count : Nat) (trend : Option Trend)
deriving DecidableEq

/-- `storage.get_weekly_summary`: builds the 7 daily summaries for `dates`
(`today.isoformat()` down to `(today - 6 days).isoformat()`, today first;
the calendar arithmetic producing the strings is injected), returns the
no-data message when no day is active, otherwise the six averages over
active days plus the trend. -/
def get_weekly_summary (table : List FoodEntry) (dates : List String) :
    WeeklyResult :=
  let days := dates.map (get_daily_summary table)
  let active_days := days.filter dayActive
  if active_days.isEmpty then .noData
  else
    let n : ℚ := active_days.length
    .summary ((active_days.map DailySummary.total_calories).sum / n)
      ((active_days.map DailySummary.total_proteins).sum / n)
      ((active_days.map DailySummary.total_fats).sum / n)
      ((active_days.map DailySummary.total_carbs).sum / n)
      ((active_days.map DailySummary.total_sugars).sum / n)
      ((active_days.map DailySummary.total_fiber).sum / n)
      active_days.length (weekly_trend days)

/-- The remote search invocation issued by the `search_products` tool. -/
structure SearchInvocation where
  query : String
  page : Int
  page_size : Int
deriving DecidableEq

/-- `server.search_products` (the caller-facing tool): clamps the page
size with `page_size = min(page_size, 50)` before invoking the remote
search; returns the products and the invocation actually made. -/
def server_search_products (env : Env) (query : String) (page : Int)
    (page_size : Int) : List Product × SearchInvocation :=
  let ps := min page_size 50
  (env.search_products query page ps, ⟨query, page, ps⟩)

/-- A JSON value as delivered by the remote API (numbers as exact
rationals). -/
inductive Json where
  | null
  | str (s : String)
  | num (q : ℚ)
  | jbool (b : Bool)
  | arr (items : List Json)
  | obj (fields : List (String × Json))

/-- Python `dict.get(key)` on a JSON object: first binding for the key. -/
def jget (fields : List (String × Json)) (key : String) : Option Json :=
  fields.lookup key

/-- Python truthiness of a JSON value (used by
`product.get("product_name_pl") or ...`). -/
def jtruthy : Json → Bool
  | .null => false
  | .str s => !s.isEmpty
  | .num q => q ≠ 0
  | .jbool b => b
  | .arr items => !items.isEmpty
  | .obj fields => !fields.isEmpty

/-- Pydantic validation of a `str` field value: a JSON string, anything
else raises and makes `from_api` fail. -/
def jstr : Json → Option String
  | .str s => some s
  | _ => none

/-- Pydantic validation of an `int | None` field value (`nova_group`):
`null`/absent gives `none`, an integral number gives the integer, anything
else raises. -/
def joptInt : Json → Option (Option Int)
  | .null => some none
  | .num q => if q.den = 1 then some (some q.num) else none
  | _ => none

/-- Pydantic validation of one `Nutriments` float field: absent means the
default 0, a number is taken as-is, anything else raises. -/
def jnumField (fields : List (String × Json)) (key : String) : Option ℚ :=
  match jget fields key with
  | none => some 0
  | some (.num q) => some q
  | some _ => none

/-- `Nutriments.model_validate(nutriments_raw)`: the payload must be an
object; each aliased field is validated with its 0 default. -/
def nutriments_validate : Json → Option Nutriments
  | .obj fields => do
    let calories ← jnumField fields "energy-kcal_100g"
    let proteins ← jnumField fields "proteins_100g"
    let fats ← jnumField fields "fat_100g"
    let carbs ← jnumField fields "carbohydrates_100g"
    let sugars ← jnumField fields "sugars_100g"
    let fiber ← jnumField fields "fiber_100g"
    let salt ← jnumField fields "salt_100g"
    some { calories_kcal := calories, proteins_g := proteins, fats_g := fats
           carbs_g := carbs, sugars_g := sugars, fiber_g := fiber
           salt_g := salt }
  | _ => none

/-- `Product.from_api(data)`: unwrap an optional `"product"` envelope,
read each field with its default, validate the nutriments; any shape
error (non-object payload, wrongly typed field) raises in Python and is
modelled as `none`.  (Pydantic's lax string-to-number coercions are not
modelled; that only moves the line between accepted and rejected items.) -/
def from_api (data : Json) : Option Product := do
  let .obj top := data | none
  let .obj product := (jget top "product").getD (.obj top) | none
  let nutriments_raw := (jget product "nutriments").getD (.obj [])
  let nutriments ← nutriments_validate nutriments_raw
  let barcode ← jstr ((jget product "code").getD
    ((jget product "_id").getD (.str "")))
  let name_pl := (jget product "product_name_pl").getD .null
  let name ← jstr (if jtruthy name_pl then name_pl
    else (jget product "product_name").getD (.str ""))
  let brands ← jstr ((jget product "brands").getD (.str ""))
  let grade ← jstr ((jget product "nutrition_grades").getD (.str ""))
  let nova ← joptInt ((jget product "nova_groups").getD .null)
  let image ← jstr ((jget product "image_url").getD (.str ""))
  let serving ← jstr ((jget product "serving_size").getD (.str ""))
  some { barcode := barcode, name := name, brands := brands
         nutrition_grade := grade, nova_group := nova, image_url := image
         serving_size := serving, nutriments := nutriments }

/-- The accumulator loop of `client.search_products`: try to normalize
each item, appending successes and skipping failures
(`except Exception: continue`). -/
def search_normalize_go : List Json → List Product → List Product
  | [], acc => acc
  | item :: rest, acc =>
    match from_api item with
    | some p => search_normalize_go rest (acc ++ [p])
    | none => search_normalize_go rest acc

/-- The normalization stage of `client.search_products` applied to
`data["products"]`. -/
def search_normalize (items : List Json) : List Product :=
  search_normalize_go items []

/-! Concrete fixtures used by counterexamples and witnesses. -/

/-- A lunch row with the smaller id. -/
def eLunch : FoodEntry :=
  { id := 1, date := "2024-05-01", meal_type := "lunch", product_name := "soup" }

/-- A dinner row with the larger id, same date. -/
def eDinner : FoodEntry :=
  { id := 2, date := "2024-05-01", meal_type := "dinner", product_name := "pasta" }

/-- A user-defined custom product. -/
def appleCustom : CustomProduct :=
  { id := 1, name := "apple", calories_kcal_100g := 52, carbs_g_100g := 14 }

/-- An environment whose local catalog holds exactly `appleCustom` and
whose remote endpoints return nothing. -/
def envLocalApple : Env :=
  { find_custom_product := fun s => if s = "apple" then some appleCustom else none
    get_product := fun _ => none
    search_products := fun _ _ _ => [] }

/-- An environment where every lookup comes back empty. -/
def envEmpty : Env :=
  { find_custom_product := fun _ => none
    get_product := fun _ => none
    search_products := fun _ _ _ => [] }

/-- A remote product with 250 kcal per 100g. -/
def snackBar : Product :=
  { barcode := "0123456789012", name := "Snack bar"
    nutriments := { calories_kcal := 250, proteins_g := 10, fats_g := 12
                    carbs_g := 30, sugars_g := 20, fiber_g := 5, salt_g := 1 } }

/-- A well-formed search-result item. -/
def goodItem : Json := .obj [("product_name", .str "Milk")]

/-- A malformed search-result item (not a JSON object, so
`Product.from_api` raises on it). -/
def badItem : Json := .str "oops"

/-! Theorems. -/

theorem format_groups_names (s : DailySummary) :
    ∀ ms : List String,
      (ms.filterMap (format_meal_group s)).map Prod.fst =
        ms.filter (fun m => s.entries.any (fun e => e.meal_type == m)) := by
  intro ms
  induction ms with
  | nil => rfl
  | cons m rest ih =>
    cases h : (s.entries.filter (fun e => e.meal_type == m)).isEmpty with
    | true =>
      have hf : format_meal_group s m = none := by
        simp [format_meal_group, h]
      have hnil : s.entries.filter (fun e => e.meal_type == m) = [] :=
        List.isEmpty_iff.mp h
      have ha : s.entries.any (fun e => e.meal_type == m) = false := by
        rw [List.any_eq_false]
        intro x hx
        exact List.filter_eq_nil_iff.mp hnil x hx
      simp [List.filterMap_cons_none hf, List.filter_cons, ha, ih]
    | false =>
      have hf : format_meal_group s m =
          some (m, s.entries.filter (fun e => e.meal_type == m)) := by
        simp [format_meal_group, h]
      have hne : s.entries.filter (fun e => e.meal_type == m) ≠ [] := by
        intro hc
        rw [hc] at h
        simp at h
      have ha : s.entries.any (fun e => e.meal_type == m) = true := by
        rw [List.any_eq_true]
        cases hx : s.entries.filter (fun e => e.meal_type == m) with
        | nil => exact absurd hx hne
        | cons a as =>
          have : a ∈ s.entries.filter (fun e => e.meal_type == m) := by
            rw [hx]; exact List.mem_cons_self a as
          rcases List.mem_filter.mp this with ⟨hmem, hpred⟩
          exact ⟨a, hmem, hpred⟩
      simp [List.filterMap_cons_some hf, List.filter_cons, ha, ih]

/-- C1 is refuted on the code: on a date holding a lunch entry (id 1) and
a dinner entry (id 2), the entries-for-date query returns the dinner row
first (`ORDER BY meal_type` is lexicographic text order, and
"dinner" < "lunch" as strings), so the returned list is not ordered by the
canonical meal rank breakfast < lunch < dinner < snack. -/
theorem entries_order_claim_refuted :
    get_entries_for_date [eLunch, eDinner] "2024-05-01" = [eDinner, eLunch] ∧
    canonical_rank eLunch.meal_type < canonical_rank eDinner.meal_type ∧
    claim_ordered (get_entries_for_date [eLunch, eDinner] "2024-05-01") =
      false := by
  exact ⟨by decide, by decide, by decide⟩

/-- C1 (amended): the list returned by the entries-for-date query (and
stored in the DailySummary built from it) is ordered by the raw
`meal_type` string in byte-wise lexicographic order (so breakfast <
dinner < lunch < snack, with non-canonical meal types interleaved
alphabetically rather than after the four), with ascending id within
equal meal types; it holds exactly the rows of that date; the
`DailySummary.format` rendering, by contrast, displays the meal groups in
the canonical order breakfast, lunch, dinner, snack (those present,
each with its entries). -/
theorem entries_order_sql_and_format (table : List FoodEntry) (d : String) :
    List.Sorted sqlLe (get_entries_for_date table d) ∧
    (get_entries_for_date table d).Perm
      (table.filter (fun r => r.date == d)) ∧
    (format_meal_groups (get_daily_summary table d)).map Prod.fst =
      meal_order.filter
        (fun m => (get_daily_summary table d).entries.any
          (fun e => e.meal_type == m)) := by
  refine ⟨List.sorted_insertionSort sqlLe _, List.perm_insertionSort sqlLe _,
    format_groups_names _ meal_order⟩

/-- C8: deleting by id returns true and removes exactly the rows with
that id when one is present; on an absent id it returns false and leaves
the table unchanged. -/
theorem delete_entry_spec (table : List FoodEntry) (entry_id : Nat) :
    ((∃ r ∈ table, r.id = entry_id) →
      (delete_entry table entry_id).1 = true ∧
      (∀ r ∈ (delete_entry table entry_id).2, r.id ≠ entry_id) ∧
      (∀ r ∈ table, r.id ≠ entry_id → r ∈ (delete_entry table entry_id).2)) ∧
    ((∀ r ∈ table, r.id ≠ entry_id) →
      (delete_entry table entry_id).1 = false ∧
      (delete_entry table entry_id).2 = table) := by
  constructor
  · rintro ⟨r, hr, hid⟩
    refine ⟨?_, ?_, ?_⟩
    · simp only [delete_entry, decide_eq_true_eq]
      exact List.countP_pos_iff.mpr ⟨r, hr, by simp [hid]⟩
    · intro x hx
      have := (List.mem_filter.mp hx).2
      simpa using this
    · intro x hx hne
      exact List.mem_filter.mpr ⟨hx, by simpa using hne⟩
  · intro h
    constructor
    · simp only [delete_entry, decide_eq_false_iff_not]
      intro hpos
      rcases List.countP_pos_iff.mp hpos with ⟨a, ha, hpa⟩
      exact h a ha (by simpa using hpa)
    · exact List.filter_eq_self.mpr fun a ha => by simpa using h a ha

theorem search_normalize_go_eq (items : List Json) :
    ∀ acc : List Product,
      search_normalize_go items acc = acc ++ items.filterMap from_api := by
  induction items with
  | nil => intro acc; simp [search_normalize_go]
  | cons item rest ih =>
    intro acc
    cases h : from_api item with
    | none =>
      simp [search_normalize_go, h, ih, List.filterMap_cons_none h]
    | some p =>
      simp [search_normalize_go, h, ih, List.filterMap_cons_some h]

/-- C9: a search-result item that fails to normalize is skipped on its
own: the normalized result of a response containing it is the
concatenation of the normalizations of the items before and after it,
and it consists of exactly the successfully normalized items. -/
theorem search_skips_malformed_items (pre post : List Json) (bad : Json)
    (h : from_api bad = none) :
    search_normalize (pre ++ bad :: post) =
      search_normalize pre ++ search_normalize post ∧
    search_normalize (pre ++ bad :: post) =
      pre.filterMap from_api ++ post.filterMap from_api := by
  constructor
  · simp [search_normalize, search_normalize_go_eq, List.filterMap_append,
      List.filterMap_cons_none h]
  · simp [search_normalize, search_normalize_go_eq, List.filterMap_append,
      List.filterMap_cons_none h]

/-- C9 witness: a response of a good item, a malformed item and another
good item normalizes to the two good products, the malformed one skipped. -/
theorem search_skips_malformed_items_witness :
    search_normalize ([goodItem] ++ badItem :: [goodItem]) =
      [{ name := "Milk" }, { name := "Milk" }] :=
  (search_skips_malformed_items [goodItem] [goodItem] badItem
    (by decide)).1.trans (by decide)

/-- C10: the caller-facing search tool caps the page size at 50: a
requested size above 50 is replaced by exactly 50, one of at most 50 is
passed through unchanged, and the remote search is invoked with the
capped size. -/
theorem search_page_size_cap (env : Env) (query : String)
    (page page_size : Int) :
    (50 < page_size →
      (server_search_products env query page page_size).2.page_size = 50) ∧
    (page_size ≤ 50 →
      (server_search_products env query page page_size).2.page_size =
        page_size) ∧
    (server_search_products env query page page_size).1 =
      env.search_products query page (min page_size 50) := by
  refine ⟨fun h => ?_, fun h => ?_, rfl⟩
  · simp only [server_search_products]
    exact min_eq_right (le_of_lt h)
  · simp only [server_search_products]
    exact min_eq_left h

/-- C2 is refuted on the code: `log_food` never validates the amount.
With a resolvable product and the non-positive amount -50, the call is
not rejected — it succeeds and persists one (negatively scaled) entry. -/
theorem log_food_accepts_nonpositive_amount :
    ((-50 : ℚ) ≤ 0) ∧
    (log_food envLocalApple {} "2024-05-02" "apple" (-50) "snack").1.isLogged =
      true ∧
    (log_food envLocalApple {} "2024-05-02" "apple" (-50) "snack").2.1.rows.length =
      1 := by
  exact ⟨by decide, by decide, by decide⟩

/-- C2 (amended): `log_food` performs no amount validation: for every
amount — including amounts ≤ 0 — once the meal type is valid and the
identifier resolves to a product, the entry scaled by `amount / 100` is
created and persisted; only invalid meal types are rejected. -/
theorem log_food_no_amount_validation (env : Env) (store : Store)
    (today ident : String) (a : ℚ) (mt : String) (p : Product)
    (calls : List RemoteCall) (hmeal : pyLower mt ∈ valid_meals)
    (hres : resolve_product env ident = (some p, calls)) :
    log_food env store today ident a mt =
      (.logged { build_entry p a (pyLower mt) today with id := store.next_id }
         store.next_id,
       { rows := store.rows ++
           [{ build_entry p a (pyLower mt) today with id := store.next_id }],
         next_id := store.next_id + 1 },
       calls) := by
  simp only [log_food, hres, storage_log_food, if_pos hmeal]

/-- C2 witness: the amended theorem applied at the concrete non-positive
amount -50: the entry is persisted (one row lands in the store). -/
theorem log_food_no_amount_validation_witness :
    (log_food envLocalApple {} "2024-05-02" "apple" (-50) "snack").2.1.rows.length =
      1 := by
  have h := log_food_no_amount_validation envLocalApple {} "2024-05-02"
    "apple" (-50) "snack" appleCustom.to_product [] (by decide) (by decide)
  rw [h]
  rfl

/-- C3: an identifier matched by the local custom catalog resolves to
that custom product converted to a `Product`, with the six nutrient
fields copied 1:1 and unscaled (salt, absent from custom products,
defaults to 0), and no remote call — neither barcode lookup nor search —
is issued. -/
theorem local_match_short_circuits (env : Env) (ident : String)
    (c : CustomProduct) (h : env.find_custom_product ident = some c) :
    resolve_product env ident = (some c.to_product, []) ∧
    c.to_product.nutriments =
      { calories_kcal := c.calories_kcal_100g
        proteins_g := c.proteins_g_100g
        fats_g := c.fats_g_100g
        carbs_g := c.carbs_g_100g
        sugars_g := c.sugars_g_100g
        fiber_g := c.fiber_g_100g
        salt_g := 0 } := by
  refine ⟨?_, rfl⟩
  simp only [resolve_product, h]

/-- C3 witness: with `appleCustom` in the local catalog, resolving
"apple" returns its conversion and issues no remote call. -/
theorem local_match_short_circuits_witness :
    resolve_product envLocalApple "apple" = (some appleCustom.to_product, []) :=
  (local_match_short_circuits envLocalApple "apple" appleCustom (by decide)).1

/-- C4: for every product and amount > 0, each of the six scaled totals
of the built entry is exactly the per-100g value times `amount / 100`
(exact rational arithmetic — the code applies no rounding here), and the
amount is stored as passed. -/
theorem build_entry_exact_scaling (p : Product) (a : ℚ) (mt today : String)
    (_h : 0 < a) :
    (build_entry p a mt today).calories_kcal =
      p.nutriments.calories_kcal * (a / 100) ∧
    (build_entry p a mt today).proteins_g =
      p.nutriments.proteins_g * (a / 100) ∧
    (build_entry p a mt today).fats_g = p.nutriments.fats_g * (a / 100) ∧
    (build_entry p a mt today).carbs_g = p.nutriments.carbs_g * (a / 100) ∧
    (build_entry p a mt today).sugars_g = p.nutriments.sugars_g * (a / 100) ∧
    (build_entry p a mt today).fiber_g = p.nutriments.fiber_g * (a / 100) ∧
    (build_entry p a mt today).amount_g = a :=
  ⟨rfl, rfl, rfl, rfl, rfl, rfl, rfl⟩

/-- C4 witness: 150g of a 250 kcal/100g product scales to exactly 375
kcal. -/
theorem build_entry_exact_scaling_witness :
    (0 : ℚ) < 150 ∧
    (build_entry snackBar 150 "lunch" "2024-05-01").calories_kcal = 375 := by
  refine ⟨by decide, ?_⟩
  have h :=
    (build_entry_exact_scaling snackBar 150 "lunch" "2024-05-01" (by decide)).1
  rw [h]
  norm_num [snackBar]

/-- C5: for an identifier with no local match that consists only of
digits: when its length is ≥ 8 the barcode lookup is tried first (a hit
ends resolution with only that call; a miss falls back to the free-text
search), and when its length is < 8 it goes directly through the search,
never through the barcode lookup. -/
theorem barcode_heuristic (env : Env) (ident : String)
    (hlocal : env.find_custom_product ident = none)
    (hdigit : pyIsdigit ident = true) :
    (8 ≤ ident.length →
      (resolve_product env ident).2.head? = some (.barcodeLookup ident) ∧
      (∀ p, env.get_product ident = some p →
        resolve_product env ident = (some p, [.barcodeLookup ident])) ∧
      (env.get_product ident = none →
        (resolve_product env ident).2 =
          [.barcodeLookup ident, .search ident 1 1])) ∧
    (ident.length < 8 →
      (resolve_product env ident).2 = [.search ident 1 1]) := by
  constructor
  · intro hlen
    have hc : decide (8 ≤ ident.length) = true := decide_eq_true hlen
    refine ⟨?_, ?_, ?_⟩
    · simp only [resolve_product, hlocal, hdigit, hc, Bool.and_self,
        if_true]
      cases hgp : env.get_product ident with
      | some p => rfl
      | none =>
        cases hs : env.search_products ident 1 1 with
        | nil => rfl
        | cons p rest => rfl
    · intro p hgp
      simp only [resolve_product, hlocal, hdigit, hc, Bool.and_self, if_true,
        hgp]
    · intro hgp
      simp only [resolve_product, hlocal, hdigit, hc, Bool.and_self, if_true,
        hgp]
      cases hs : env.search_products ident 1 1 with
      | nil => rfl
      | cons p rest => rfl
  · intro hlen
    have hc : decide (8 ≤ ident.length) = false :=
      decide_eq_false (Nat.not_le.mpr hlen)
    simp only [resolve_product, hlocal, hdigit, hc, Bool.and_false, if_false]
    cases hs : env.search_products ident 1 1 with
    | nil => rfl
    | cons p rest => rfl

/-- C5 witness: with nothing in the local catalog, the 4-digit "0123"
goes through search only, and the 14-digit "05900000000000" (whose
barcode lookup misses) is tried as a barcode first, then searched. -/
theorem barcode_heuristic_witness :
    pyIsdigit "0123" = true ∧
    (resolve_product envEmpty "0123").2 = [.search "0123" 1 1] ∧
    (resolve_product envEmpty "05900000000000").2 =
      [.barcodeLookup "05900000000000", .search "05900000000000" 1 1] := by
  refine ⟨by decide, ?_, ?_⟩
  · exact (barcode_heuristic envEmpty "0123" (by decide) (by decide)).2
      (by decide)
  · exact ((barcode_heuristic envEmpty "05900000000000" (by decide)
      (by decide)).1 (by decide)).2.2 rfl

/-- C6: the weekly summary signals no-data exactly when none of the
window's days has an entry; otherwise each of the six averages divides
the sum over the active days by the number of active days only —
inactive days are excluded from the denominator, not counted as
zero-value days. -/
theorem weekly_summary_active_days_average (table : List FoodEntry)
    (dates : List String) :
    ((dates.map (get_daily_summary table)).filter dayActive = [] →
      get_weekly_summary table dates = .noData) ∧
    ((dates.map (get_daily_summary table)).filter dayActive ≠ [] →
      get_weekly_summary table dates =
        .summary
          ((((dates.map (get_daily_summary table)).filter dayActive).map
              DailySummary.total_calories).sum /
            (((dates.map (get_daily_summary table)).filter dayActive).length : ℚ))
          ((((dates.map (get_daily_summary table)).filter dayActive).map
              DailySummary.total_proteins).sum /
            (((dates.map (get_daily_summary table)).filter dayActive).length : ℚ))
          ((((dates.map (get_daily_summary table)).filter dayActive).map
              DailySummary.total_fats).sum /
            (((dates.map (get_daily_summary table)).filter dayActive).length : ℚ))
          ((((dates.map (get_daily_summary table)).filter dayActive).map
              DailySummary.total_carbs).sum /
            (((dates.map (get_daily_summary table)).filter dayActive).length : ℚ))
          ((((dates.map (get_daily_summary table)).filter dayActive).map
              DailySummary.total_sugars).sum /
            (((dates.map (get_daily_summary table)).filter dayActive).length : ℚ))
          ((((dates.map (get_daily_summary table)).filter dayActive).map
              DailySummary.total_fiber).sum /
            (((dates.map (get_daily_summary table)).filter dayActive).length : ℚ))
          ((dates.map (get_daily_summary table)).filter dayActive).length
          (weekly_trend (dates.map (get_daily_summary table)))) := by
  constructor
  · intro h
    simp [get_weekly_summary, h]
  · intro h
    have hne : ((dates.map (get_daily_summary table)).filter dayActive).isEmpty =
        false := List.isEmpty_eq_false.mpr h
    simp [get_weekly_summary, hne]

/-- C7: the weekly trend partitions the today-first 7-day window into
recent = the first 3 days and earlier = the remaining 4, each filtered to
active days; it is omitted exactly when either part has no active day;
otherwise, with diff = average recent calories minus average earlier
calories, it is stable when |diff| < 50 kcal, an increase carrying diff
when diff > 0 (and |diff| ≥ 50), and a decrease carrying diff when
diff < 0 (and |diff| ≥ 50). -/
theorem weekly_trend_classification (days : List DailySummary) :
    ((days.take 3).filter dayActive = [] ∨
        (days.drop 3).filter dayActive = [] →
      weekly_trend days = none) ∧
    ((days.take 3).filter dayActive ≠ [] →
      (days.drop 3).filter dayActive ≠ [] →
      (|weekly_diff days| < 50 → weekly_trend days = some .stable) ∧
      (¬|weekly_diff days| < 50 → 0 < weekly_diff days →
        weekly_trend days = some (.increase (weekly_diff days))) ∧
      (¬|weekly_diff days| < 50 → weekly_diff days < 0 →
        weekly_trend days = some (.decrease (weekly_diff days)))) ∧
    (days.length = 7 →
      (days.take 3).length = 3 ∧ (days.drop 3).length = 4) := by
  refine ⟨?_, ?_, ?_⟩
  · intro h
    rcases h with h | h <;> simp [weekly_trend, h]
  · intro h1 h2
    have hne1 : ((days.take 3).filter dayActive).isEmpty = false :=
      List.isEmpty_eq_false.mpr h1
    have hne2 : ((days.drop 3).filter dayActive).isEmpty = false :=
      List.isEmpty_eq_false.mpr h2
    refine ⟨fun hd => ?_, fun hd1 hd2 => ?_, fun hd1 hd2 => ?_⟩
    · simp [weekly_trend, hne1, hne2, hd]
    · simp [weekly_trend, hne1, hne2, hd1, hd2]
    · simp [weekly_trend, hne1, hne2, hd1, hd2, lt_asymm hd2]
  · intro h
    constructor <;> simp [h]

end OFFMCP
